import Mathlib

/-!
Shallow embedding of the NeuroLink-Speak conversation pipeline
(src/config.py, src/translator_service.py, src/tts_service.py,
src/asr_service.py, src/conversation_mode.py).

Conventions of the embedding:
  - Python strings are Lean `String`; the Python truthiness test `if not s`
    on a string is `s = ""`, and on an `Optional[str]` it is `none` or `some ""`.
  - Audio byte buffers are `List Nat` (their content is never inspected by
    the pipeline beyond truthiness).
  - Python floats (the confidence score) are modelled as `Rat`; the pipeline
    only stores them, never computes with them.
  - External collaborators (the MarianMT model, gTTS, langdetect, the random
    mock sources, the database commit) are oracles passed in explicitly; the
    control flow around them is translated from the source.
  - Calls to the UI message functions (st.warning / st.error) are modelled as
    an explicit list of emitted messages, and the call into the gTTS engine
    is recorded as an explicit `TTSCall` trace value, so that what the code
    reports and which synthesis language it uses are observable.
-/

/-- Audio byte buffers, content-agnostic. -/
abbrev Bytes := List Nat

/-- The fields of the `User` ORM model (src/database.py) that the
conversation pipeline reads. -/
structure User where
  id : Nat
  native_language : String
  target_language : String
  voice_type : String
deriving Repr, DecidableEq

/-! ## config.py -/

/-- `AppConfig.TRANSLATION_MODELS` from src/config.py, the dict of supported
MarianMT language pairs, modelled as a partial map from the key
`source-target` to the model name. -/
def TRANSLATION_MODELS (k : String) : Option String :=
  if k = "en-es" then some "Helsinki-NLP/opus-mt-en-es"
  else if k = "es-en" then some "Helsinki-NLP/opus-mt-es-en"
  else if k = "en-fr" then some "Helsinki-NLP/opus-mt-en-fr"
  else if k = "fr-en" then some "Helsinki-NLP/opus-mt-fr-en"
  else if k = "en-de" then some "Helsinki-NLP/opus-mt-en-de"
  else if k = "de-en" then some "Helsinki-NLP/opus-mt-de-en"
  else if k = "en-it" then some "Helsinki-NLP/opus-mt-en-it"
  else if k = "it-en" then some "Helsinki-NLP/opus-mt-it-en"
  else if k = "en-pt" then some "Helsinki-NLP/opus-mt-en-pt"
  else if k = "pt-en" then some "Helsinki-NLP/opus-mt-pt-en"
  else if k = "en-ru" then some "Helsinki-NLP/opus-mt-en-ru"
  else if k = "ru-en" then some "Helsinki-NLP/opus-mt-ru-en"
  else if k = "en-ar" then some "Helsinki-NLP/opus-mt-en-ar"
  else if k = "ar-en" then some "Helsinki-NLP/opus-mt-ar-en"
  else if k = "en-hi" then some "Helsinki-NLP/opus-mt-en-hi"
  else if k = "hi-en" then some "Helsinki-NLP/opus-mt-hi-en"
  else if k = "en-zh" then some "Helsinki-NLP/opus-mt-en-zh"
  else if k = "zh-en" then some "Helsinki-NLP/opus-mt-zh-en"
  else none

/-! ## translator_service.py -/

/-- UI messages emitted by the translator (st.warning / st.error calls in
src/translator_service.py). -/
inductive TransMsg where
  /-- st.warning about an unsupported language pair
      (TranslatorService.translate_text). -/
  | warnUnsupported (source_lang target_lang : String)
  /-- st.error when the model or tokenizer failed to load. -/
  | errLoadFailed
  /-- st.error when the generate/decode call raised. -/
  | errTranslate
deriving Repr, DecidableEq

/-- Oracle for the external MarianMT machinery: whether loading a given model
name succeeds, and what `model.generate` + decode produce on a given text
(`none` models the call raising, caught by the source's try/except). -/
structure TransOracle where
  loadOk : String → Bool
  run : String → String → Option String

/-- `TranslatorService.translate_text` from src/translator_service.py.
Returns the translated text (`none` on any failure path) together with the
UI messages emitted. -/
def TranslatorService.translate_text (o : TransOracle)
    (text source_lang target_lang : String) : Option String × List TransMsg :=
  let model_key := source_lang ++ "-" ++ target_lang
  match TRANSLATION_MODELS model_key with
  | none => (none, [TransMsg.warnUnsupported source_lang target_lang])
  | some model_name =>
    if o.loadOk model_name then
      match o.run model_name text with
      | some translated_text => (some translated_text, [])
      | none => (none, [TransMsg.errTranslate])
    else (none, [TransMsg.errLoadFailed])

/-- Module-level `translate_text` from src/translator_service.py: empty input
passes through as `""`; the sentinel targets "no" and "none" disable
translation; otherwise the service is consulted and a falsy result (None or
the empty string) falls back to the original text. -/
def translate_text (o : TransOracle)
    (text source_lang target_lang : String) : String × List TransMsg :=
  if text = "" then ("", [])
  else if target_lang = "no" ∨ target_lang = "none" then (text, [])
  else
    let r := TranslatorService.translate_text o text source_lang target_lang
    (match r.1 with
     | some translated => if translated = "" then text else translated
     | none => text,
     r.2)

/-! ## tts_service.py -/

/-- Oracle for the external TTS machinery: `detect` is langdetect.detect
(`none` models the detection call raising), `gtts` is the gTTS synthesis of a
text in a language (`none` models the gTTS/save call raising, caught by the
try/except of the source). -/
structure TTSOracle where
  detect : String → Option String
  gtts : String → String → Option Bytes

/-- Trace of one call into the gTTS engine: the text synthesized, the
voice_type argument the service was given, and the language actually passed
to gTTS as `lang=`. -/
structure TTSCall where
  text : String
  voice_type : String
  lang : String
deriving Repr, DecidableEq

/-- `TTSService.text_to_speech` from src/tts_service.py. Empty text returns
`none` without calling gTTS. A falsy `language` argument (absent or empty) is
replaced by auto-detection on the text, with fallback "en" when detection
raises. The second component records the gTTS call made, if any. -/
def TTSService.text_to_speech (o : TTSOracle) (text voice_type : String)
    (language : Option String) : Option Bytes × Option TTSCall :=
  if text = "" then (none, none)
  else
    let lang :=
      match language with
      | some l =>
        if l = "" then (match o.detect text with | some d => d | none => "en") else l
      | none => match o.detect text with | some d => d | none => "en"
    match o.gtts text lang with
    | some audio_bytes => (some audio_bytes, some ⟨text, voice_type, lang⟩)
    | none => (none, some ⟨text, voice_type, lang⟩)

/-- Module-level `generate_speech` from src/tts_service.py: empty text gives
an absent result, otherwise the service call is made. -/
def generate_speech (o : TTSOracle) (text voice_type : String)
    (language : Option String) : Option Bytes × Option TTSCall :=
  if text = "" then (none, none)
  else TTSService.text_to_speech o text voice_type language

/-! ## asr_service.py -/

/-- `ASRService.transcribe_audio` from src/asr_service.py: `none` on falsy
(empty) audio, otherwise the random.choice over the mock transcription list,
supplied here as the oracle value `choice`. -/
def ASRService.transcribe_audio (choice : String) (audio_bytes : Bytes) :
    Option String :=
  if audio_bytes = [] then none else some choice

/-- Module-level `transcribe_speech` from src/asr_service.py: `none` on falsy
audio, otherwise the service transcription. -/
def transcribe_speech (choice : String) (audio_bytes : Bytes) : Option String :=
  if audio_bytes = [] then none
  else ASRService.transcribe_audio choice audio_bytes

/-! ## conversation_mode.py -/

/-- One entry of `st.session_state.conversation_history`
(src/conversation_mode.py). The incoming path stores no confidence key,
hence the `Option`. -/
structure MessageEntry where
  sender : String
  original : String
  translated : String
  confidence : Option Rat
  audio : Option Bytes
  timestamp : Nat
deriving Repr, DecidableEq

/-- A row of the `conversation_logs` table (src/database.py), restricted to
the fields the pipeline writes. -/
structure ConversationLog where
  user_id : Nat
  direction : String
  original_text : String
  translated_text : String
  audio_file_path : Option String
deriving Repr, DecidableEq

/-- The Streamlit session state the pipeline touches: the history list and
the message counter. The counter key is absent until first set, and is read
with `st.session_state.get("message_counter", 0)`. -/
structure SessionState where
  conversation_history : List MessageEntry
  message_counter : Option Nat
deriving Repr, DecidableEq

/-- Session state plus the persistent conversation_logs table. -/
structure AppState where
  session : SessionState
  db : List ConversationLog
deriving Repr, DecidableEq

/-- The fresh session state built by `ConversationManager.__init__` for a new
session. -/
def initialState : AppState := ⟨⟨[], none⟩, []⟩

/-- `ConversationManager.save_conversation_log`: builds an audio path when
the audio bytes are truthy, then adds and commits a ConversationLog row.
`dbOk` is the oracle for the commit succeeding; on failure the transaction is
rolled back, leaving the table unchanged, and False is returned. With no
authenticated user it returns False up front. `historyLen` is
`len(st.session_state.conversation_history)` at call time. -/
def ConversationManager.save_conversation_log (user : Option User) (dbOk : Bool)
    (direction original_text translated_text : String) (audio_bytes : Option Bytes)
    (historyLen : Nat) (db : List ConversationLog) : Bool × List ConversationLog :=
  match user with
  | none => (false, db)
  | some u =>
    let audio_file_path : Option String :=
      match audio_bytes with
      | some bs =>
        if bs = [] then none
        else some ("audio_logs/" ++ toString u.id ++ "_" ++ direction ++ "_"
                   ++ toString historyLen ++ ".wav")
      | none => none
    let log_entry : ConversationLog :=
      ⟨u.id, direction, original_text, translated_text, audio_file_path⟩
    if dbOk then (true, db ++ [log_entry]) else (false, db)

/-- External inputs of one `simulate_outgoing_message` call: the decoded
(text, confidence) pair from get_mock_decoded_text, the translator and TTS
oracles, and the database-commit outcome. -/
structure OutEnv where
  decoded : String × Rat
  trans : TransOracle
  tts : TTSOracle
  dbOk : Bool

/-- Result of one turn production: the returned
(original_text, translated_text, audio_bytes) tuple, the updated state, and
the trace of the gTTS call made during the turn, if any. -/
structure TurnResult where
  original : String
  translated : String
  audio : Option Bytes
  state : AppState
  ttsCall : Option TTSCall

/-- `ConversationManager.simulate_outgoing_message`: decode → translate
native→target → synthesize (no language argument: auto-detect) → append the
turn to history with the current counter value as timestamp → increment the
counter → best-effort save of the log row. -/
def ConversationManager.simulate_outgoing_message (env : OutEnv) (user : User)
    (st : AppState) : TurnResult :=
  let original_text := env.decoded.1
  let confidence := env.decoded.2
  let translated_text :=
    (translate_text env.trans original_text user.native_language user.target_language).1
  let speech := generate_speech env.tts translated_text user.voice_type none
  let audio_bytes := speech.1
  let message_entry : MessageEntry :=
    ⟨"You", original_text, translated_text, some confidence, audio_bytes,
     st.session.message_counter.getD 0⟩
  let history := st.session.conversation_history ++ [message_entry]
  let counter := some (st.session.message_counter.getD 0 + 1)
  let saved := ConversationManager.save_conversation_log (some user) env.dbOk
    "outgoing" original_text translated_text audio_bytes history.length st.db
  ⟨original_text, translated_text, audio_bytes, ⟨⟨history, counter⟩, saved.2⟩, speech.2⟩

/-- External inputs of one `simulate_incoming_message` call: the mock audio
buffer, the random.choice transcription pick, the translator and TTS oracles,
and the database-commit outcome. -/
structure InEnv where
  audio : Bytes
  choice : String
  trans : TransOracle
  tts : TTSOracle
  dbOk : Bool

/-- `ConversationManager.simulate_incoming_message`: transcribe (falling back
to the fixed string when the transcription is falsy) → translate
target→native → synthesize → append the turn (sender "Partner", no
confidence key) → increment the counter → best-effort save. -/
def ConversationManager.simulate_incoming_message (env : InEnv) (user : User)
    (st : AppState) : TurnResult :=
  let transcribed := transcribe_speech env.choice env.audio
  let original_text :=
    match transcribed with
    | some t => if t = "" then "Sorry, I couldn\x27t understand that." else t
    | none => "Sorry, I couldn\x27t understand that."
  let translated_text :=
    (translate_text env.trans original_text user.target_language user.native_language).1
  let speech := generate_speech env.tts translated_text user.voice_type none
  let response_audio_bytes := speech.1
  let message_entry : MessageEntry :=
    ⟨"Partner", original_text, translated_text, none, response_audio_bytes,
     st.session.message_counter.getD 0⟩
  let history := st.session.conversation_history ++ [message_entry]
  let counter := some (st.session.message_counter.getD 0 + 1)
  let saved := ConversationManager.save_conversation_log (some user) env.dbOk
    "incoming" original_text translated_text response_audio_bytes history.length st.db
  ⟨original_text, translated_text, response_audio_bytes,
   ⟨⟨history, counter⟩, saved.2⟩, speech.2⟩

/-- External inputs of one manual-message send: the translator and TTS
oracles and the database-commit outcome. -/
structure ManualEnv where
  trans : TransOracle
  tts : TTSOracle
  dbOk : Bool

/-- The manual-input branch of `ConversationManager.conversation_interface`:
`native_translated_text` is the typed text translated base("en")→native; the
send fires only when `manual_text` is truthy; the sent turn stores
`native_translated_text` as its original and its native→target translation as
its translated text, while the saved log row stores the raw `manual_text` as
original_text. -/
def ConversationManager.send_manual_message (env : ManualEnv) (user : User)
    (manual_text : String) (st : AppState) : AppState :=
  let native_translated_text :=
    (translate_text env.trans manual_text "en" user.native_language).1
  if manual_text = "" then st
  else
    let translated_text :=
      (translate_text env.trans native_translated_text user.native_language
        user.target_language).1
    let speech := generate_speech env.tts translated_text user.voice_type none
    let audio_bytes := speech.1
    let message_entry : MessageEntry :=
      ⟨"You", native_translated_text, translated_text, some 1, audio_bytes,
       st.session.message_counter.getD 0⟩
    let history := st.session.conversation_history ++ [message_entry]
    let counter := some (st.session.message_counter.getD 0 + 1)
    let saved := ConversationManager.save_conversation_log (some user) env.dbOk
      "outgoing" manual_text translated_text audio_bytes history.length st.db
    ⟨⟨history, counter⟩, saved.2⟩

/-- Repeated `simulate_outgoing_message` calls in one session, each with its
own external inputs. -/
def runOutgoing (user : User) (envs : List OutEnv) (st : AppState) : AppState :=
  envs.foldl
    (fun s e => (ConversationManager.simulate_outgoing_message e user s).state) st

/-! ## Helper lemmas and concrete oracles -/

/-- A string of the form `L-L` never equals a five-character key whose second
and fifth characters differ. -/
theorem append_self_ne (L k : String) (a b c d : Char)
    (hk : k.data = [a, b, '-', c, d]) (h : b ≠ d) : L ++ "-" ++ L ≠ k := by
  intro h'
  have hd : (L.data ++ ['-']) ++ L.data = [a, b, '-', c, d] := by
    have h2 := congrArg String.data h'
    rw [hk] at h2
    simpa [String.data_append] using h2
  have hlen : L.data.length = 2 := by
    have h3 := congrArg List.length hd
    simp only [List.length_append, List.length_cons, List.length_nil] at h3
    omega
  obtain ⟨x, y, hxy⟩ := List.length_eq_two.mp hlen
  rw [hxy] at hd
  simp at hd
  apply h
  rw [← hd.2.1, hd.2.2.2]

/-- Every key of the translation-model table pairs two distinct languages, so
the key `L-L` is never in the table, whatever the language code `L`. -/
theorem lookup_self_none (L : String) :
    TRANSLATION_MODELS (L ++ "-" ++ L) = none := by
  unfold TRANSLATION_MODELS
  rw [if_neg (append_self_ne L "en-es" 'e' 'n' 'e' 's' rfl (by decide)),
    if_neg (append_self_ne L "es-en" 'e' 's' 'e' 'n' rfl (by decide)),
    if_neg (append_self_ne L "en-fr" 'e' 'n' 'f' 'r' rfl (by decide)),
    if_neg (append_self_ne L "fr-en" 'f' 'r' 'e' 'n' rfl (by decide)),
    if_neg (append_self_ne L "en-de" 'e' 'n' 'd' 'e' rfl (by decide)),
    if_neg (append_self_ne L "de-en" 'd' 'e' 'e' 'n' rfl (by decide)),
    if_neg (append_self_ne L "en-it" 'e' 'n' 'i' 't' rfl (by decide)),
    if_neg (append_self_ne L "it-en" 'i' 't' 'e' 'n' rfl (by decide)),
    if_neg (append_self_ne L "en-pt" 'e' 'n' 'p' 't' rfl (by decide)),
    if_neg (append_self_ne L "pt-en" 'p' 't' 'e' 'n' rfl (by decide)),
    if_neg (append_self_ne L "en-ru" 'e' 'n' 'r' 'u' rfl (by decide)),
    if_neg (append_self_ne L "ru-en" 'r' 'u' 'e' 'n' rfl (by decide)),
    if_neg (append_self_ne L "en-ar" 'e' 'n' 'a' 'r' rfl (by decide)),
    if_neg (append_self_ne L "ar-en" 'a' 'r' 'e' 'n' rfl (by decide)),
    if_neg (append_self_ne L "en-hi" 'e' 'n' 'h' 'i' rfl (by decide)),
    if_neg (append_self_ne L "hi-en" 'h' 'i' 'e' 'n' rfl (by decide)),
    if_neg (append_self_ne L "en-zh" 'e' 'n' 'z' 'h' rfl (by decide)),
    if_neg (append_self_ne L "zh-en" 'z' 'h' 'e' 'n' rfl (by decide))]

/-- A translator oracle whose model call always fails (used as a concrete
instance; the paths under test never reach it). -/
def oracleNone : TransOracle := ⟨fun _ => true, fun _ _ => none⟩

/-! ## Claims about the translator -/

/-- Claim C4: for all text t and every language code L,
translate_text(t, L, L) returns t unchanged (identity when the source
language equals the target language). The code realises this through the
unsupported-pair passthrough: no `L-L` key is in the model table. -/
theorem C4_translate_identity (o : TransOracle) (t L : String) :
    (translate_text o t L L).1 = t := by
  unfold translate_text
  by_cases ht : t = ""
  · simp [ht]
  · rw [if_neg ht]
    by_cases hL : L = "no" ∨ L = "none"
    · simp [hL]
    · rw [if_neg hL]
      simp [TranslatorService.translate_text, lookup_self_none]

/-- Claim C7: for all text t and every source language L,
translate_text(t, L, "none") returns t unchanged (the sentinel target
language disables translation). -/
theorem C7_sentinel_disables (o : TransOracle) (t L : String) :
    (translate_text o t L "none").1 = t := by
  by_cases ht : t = ""
  · simp [translate_text, ht]
  · simp [translate_text, ht]

/-- Claim C8: for every source and target language, translate_text on the
empty string returns the empty string, emits no message, and never raises
(the embedding is a total function). -/
theorem C8_empty_input (o : TransOracle) (source_lang target_lang : String) :
    translate_text o "" source_lang target_lang = ("", []) := by
  simp [translate_text]

/-- Claim C5, counterexample: the pair ("en","xx") is unsupported and the
empty text "" is passed through unchanged, but the message list is empty —
no recoverable warning is reported, because the empty-text early return runs
before the pair check. -/
theorem C5_counterexample :
    TRANSLATION_MODELS ("en" ++ "-" ++ "xx") = none ∧
    translate_text oracleNone "" "en" "xx" = ("", []) := by
  exact ⟨by decide, rfl⟩

/-- Claim C5 as amended: for an unsupported pair, translate_text returns the
text unchanged and never raises; the recoverable warning is additionally
reported exactly when the text is nonempty and the target is not one of the
sentinels "no"/"none" (empty text and sentinel targets return before the
pair check and emit nothing). -/
theorem C5_unsupported_passthrough (o : TransOracle)
    (t source_lang target_lang : String)
    (hpair : TRANSLATION_MODELS (source_lang ++ "-" ++ target_lang) = none) :
    (translate_text o t source_lang target_lang).1 = t ∧
    (t ≠ "" → ¬(target_lang = "no" ∨ target_lang = "none") →
      (translate_text o t source_lang target_lang).2
        = [TransMsg.warnUnsupported source_lang target_lang]) := by
  constructor
  · unfold translate_text
    by_cases ht : t = ""
    · simp [ht]
    · rw [if_neg ht]
      by_cases hL : target_lang = "no" ∨ target_lang = "none"
      · simp [hL]
      · rw [if_neg hL]
        simp [TranslatorService.translate_text, hpair]
  · intro ht hL
    unfold translate_text
    rw [if_neg ht, if_neg hL]
    simp [TranslatorService.translate_text, hpair]

/-- Claim C5 witness: the amended statement instantiated at the unsupported
pair ("en","xx") with the nonempty text "hello". -/
theorem C5_unsupported_passthrough_witness :
    TRANSLATION_MODELS ("en" ++ "-" ++ "xx") = none ∧
    ((translate_text oracleNone "hello" "en" "xx").1 = "hello" ∧
     ("hello" ≠ "" → ¬("xx" = "no" ∨ "xx" = "none") →
       (translate_text oracleNone "hello" "en" "xx").2
         = [TransMsg.warnUnsupported "en" "xx"])) :=
  ⟨by decide, C5_unsupported_passthrough oracleNone "hello" "en" "xx" (by decide)⟩

/-- Claim C9: for every voice preference and any (optional) language
argument, generate_speech on empty text returns an absent result, not an
error. -/
theorem C9_empty_text_absent (o : TTSOracle) (voice_type : String)
    (language : Option String) :
    (generate_speech o "" voice_type language).1 = none := by
  simp [generate_speech]

/-! ## Concrete instances for witnesses and counterexamples -/

/-- A user with native language "en", target language "es". -/
def userEnEs : User := ⟨1, "en", "es", "default"⟩

/-- A user with native language "es", target language "en". -/
def userEsEn : User := ⟨2, "es", "en", "female"⟩

/-- A translator oracle whose model returns the fixed output "Necesito
ayuda". -/
def oracleAyuda : TransOracle := ⟨fun _ => true, fun _ _ => some "Necesito ayuda"⟩

/-- A translator oracle whose model returns the fixed output "hola". -/
def oracleHola : TransOracle := ⟨fun _ => true, fun _ _ => some "hola"⟩

/-- A TTS oracle whose language detection reports "fr" and whose synthesis
succeeds. -/
def ttsDetectFr : TTSOracle := ⟨fun _ => some "fr", fun _ _ => some [0]⟩

/-- A TTS oracle whose language detection reports "en" and whose synthesis
succeeds. -/
def ttsDetectEn : TTSOracle := ⟨fun _ => some "en", fun _ _ => some [0]⟩

/-! ## Claims about the conversation pipeline -/

/-- Structural fact about one outgoing call: it appends exactly one entry,
with sender "You", timestamped with the pre-call counter value, and bumps the
counter. -/
theorem simulate_outgoing_step (env : OutEnv) (user : User) (st : AppState) :
    ∃ e : MessageEntry,
      (ConversationManager.simulate_outgoing_message env user st).state.session.conversation_history
        = st.session.conversation_history ++ [e] ∧
      e.sender = "You" ∧
      e.timestamp = st.session.message_counter.getD 0 ∧
      (ConversationManager.simulate_outgoing_message env user st).state.session.message_counter
        = some (st.session.message_counter.getD 0 + 1) :=
  ⟨_, rfl, rfl, rfl, rfl⟩

/-- Claim C2: in any session state, any sequence of simulate_outgoing_message
calls (whatever the translator, synthesizer and persistence outcomes) only
appends turns, every appended turn has sender "You", and their timestamps are
the consecutive counter values starting at the current counter — hence
strictly increasing across repeated calls. -/
theorem C2_outgoing_sender_and_sequence (user : User) (envs : List OutEnv)
    (st : AppState) :
    ∃ news : List MessageEntry,
      (runOutgoing user envs st).session.conversation_history
        = st.session.conversation_history ++ news ∧
      news.map MessageEntry.timestamp
        = List.range' (st.session.message_counter.getD 0) envs.length ∧
      ∀ e ∈ news, e.sender = "You" := by
  induction envs generalizing st with
  | nil =>
    exact ⟨[], by simp [runOutgoing], by simp [runOutgoing], by simp⟩
  | cons env rest ih =>
    obtain ⟨e, he, hsender, hts, hcounter⟩ := simulate_outgoing_step env user st
    obtain ⟨news, hn1, hn2, hn3⟩ :=
      ih ((ConversationManager.simulate_outgoing_message env user st).state)
    refine ⟨e :: news, ?_, ?_, ?_⟩
    · have hstep : runOutgoing user (env :: rest) st
          = runOutgoing user rest
              ((ConversationManager.simulate_outgoing_message env user st).state) := rfl
      rw [hstep, hn1, he]
      simp
    · rw [List.map_cons, hn2, hcounter, hts]
      rw [List.length_cons, List.range'_succ]
      rfl
    · intro x hx
      rcases List.mem_cons.mp hx with hx | hx
      · rw [hx]; exact hsender
      · exact hn3 x hx

/-- Claim C3: a persistence failure does not roll back the in-memory turn.
For both outgoing and incoming turn production, the session state after a
call whose database commit fails still holds the appended turn and the
incremented counter, and is identical to the session state of the same call
with a successful commit. -/
theorem C3_persistence_failure_no_rollback (user : User) (st : AppState)
    (oe : OutEnv) (ie : InEnv) :
    (∃ e : MessageEntry,
      (ConversationManager.simulate_outgoing_message
          ⟨oe.decoded, oe.trans, oe.tts, false⟩ user st).state.session.conversation_history
        = st.session.conversation_history ++ [e] ∧
      (ConversationManager.simulate_outgoing_message
          ⟨oe.decoded, oe.trans, oe.tts, false⟩ user st).state.session.message_counter
        = some (st.session.message_counter.getD 0 + 1) ∧
      (ConversationManager.simulate_outgoing_message
          ⟨oe.decoded, oe.trans, oe.tts, false⟩ user st).state.session
        = (ConversationManager.simulate_outgoing_message
            ⟨oe.decoded, oe.trans, oe.tts, true⟩ user st).state.session) ∧
    (∃ e : MessageEntry,
      (ConversationManager.simulate_incoming_message
          ⟨ie.audio, ie.choice, ie.trans, ie.tts, false⟩ user st).state.session.conversation_history
        = st.session.conversation_history ++ [e] ∧
      (ConversationManager.simulate_incoming_message
          ⟨ie.audio, ie.choice, ie.trans, ie.tts, false⟩ user st).state.session.message_counter
        = some (st.session.message_counter.getD 0 + 1) ∧
      (ConversationManager.simulate_incoming_message
          ⟨ie.audio, ie.choice, ie.trans, ie.tts, false⟩ user st).state.session
        = (ConversationManager.simulate_incoming_message
            ⟨ie.audio, ie.choice, ie.trans, ie.tts, true⟩ user st).state.session) :=
  ⟨⟨_, rfl, rfl, rfl⟩, ⟨_, rfl, rfl, rfl⟩⟩

/-- The gTTS call made by generate_speech when no language argument is
given (as in every pipeline call site): the language is the auto-detection
result on the text, with fallback "en"; no call happens on empty text. -/
theorem generate_speech_call (o : TTSOracle) (text voice_type : String) :
    (generate_speech o text voice_type none).2 =
      (if text = "" then none
       else some ⟨text, voice_type,
         match o.detect text with | some d => d | none => "en"⟩) := by
  by_cases h : text = ""
  · simp [generate_speech, h]
  · simp only [generate_speech, TTSService.text_to_speech, if_neg h]
    rcases hdet : o.detect text with _ | d
    · simp only
      rcases hg : o.gtts text "en" with _ | bs <;> simp [hg]
    · simp only
      rcases hg : o.gtts text d with _ | bs <;> simp [hg]

/-- External inputs of the outgoing turn used in the C1 counterexample: the
decoder yields "I need help", the model translates it to "Necesito ayuda",
and language detection on the translated text reports "fr". -/
def envC1 : OutEnv := ⟨("I need help", 1), oracleAyuda, ttsDetectFr, true⟩

/-- Claim C1, counterexample: with the user having target language "es", the
outgoing turn passes the auto-detected language "fr" to the synthesizer, not
the target language of the user — the code never hands user.target_language
to generate_speech. -/
theorem C1_counterexample :
    (ConversationManager.simulate_outgoing_message envC1 userEnEs initialState).ttsCall
        = some ⟨"Necesito ayuda", "default", "fr"⟩ ∧
    userEnEs.target_language = "es" ∧
    Option.map TTSCall.lang
        (ConversationManager.simulate_outgoing_message envC1 userEnEs initialState).ttsCall
      ≠ some userEnEs.target_language := by
  refine ⟨rfl, rfl, by decide⟩

/-- Claim C1 as amended: the outgoing turn synthesizes audio from the
translated text with the voice preference of the user passed along, but with
no synthesis-language argument: the language handed to the synthesizer is
auto-detected from the translated text (fallback "en" when detection fails),
not the target language of the user; no synthesis call happens when the
translated text is empty. -/
theorem C1_synthesis_language (env : OutEnv) (user : User) (st : AppState) :
    (ConversationManager.simulate_outgoing_message env user st).ttsCall =
      (if (translate_text env.trans env.decoded.1
            user.native_language user.target_language).1 = "" then none
       else some ⟨(translate_text env.trans env.decoded.1
            user.native_language user.target_language).1, user.voice_type,
         match env.tts.detect (translate_text env.trans env.decoded.1
            user.native_language user.target_language).1 with
         | some d => d
         | none => "en"⟩) :=
  generate_speech_call env.tts
    (translate_text env.trans env.decoded.1
      user.native_language user.target_language).1 user.voice_type

/-- Claim C6: when the transcription source yields nothing (empty audio, so
transcribe_speech returns None, or an empty transcription string), the
incoming turn uses the fixed fallback string as its original text and its
translated text is the translation of that fallback from the target language
of the user to their native language. -/
theorem C6_transcription_fallback (env : InEnv) (user : User) (st : AppState)
    (h : env.audio = [] ∨ env.choice = "") :
    ∃ e : MessageEntry,
      (ConversationManager.simulate_incoming_message env user st).state.session.conversation_history
        = st.session.conversation_history ++ [e] ∧
      e.sender = "Partner" ∧
      e.original = "Sorry, I couldn\x27t understand that." ∧
      e.translated = (translate_text env.trans "Sorry, I couldn\x27t understand that."
          user.target_language user.native_language).1 := by
  have horig : (match transcribe_speech env.choice env.audio with
      | some t => if t = "" then "Sorry, I couldn\x27t understand that." else t
      | none => "Sorry, I couldn\x27t understand that.")
      = "Sorry, I couldn\x27t understand that." := by
    rcases h with h | h
    · rw [h]
      rfl
    · rcases heq : env.audio with _ | ⟨x, xs⟩
      · rfl
      · rw [h]
        simp [transcribe_speech, ASRService.transcribe_audio]
  refine ⟨_, rfl, rfl, ?_, ?_⟩
  · show (match transcribe_speech env.choice env.audio with
      | some t => if t = "" then "Sorry, I couldn\x27t understand that." else t
      | none => "Sorry, I couldn\x27t understand that.") = _
    exact horig
  · show (translate_text env.trans
      (match transcribe_speech env.choice env.audio with
       | some t => if t = "" then "Sorry, I couldn\x27t understand that." else t
       | none => "Sorry, I couldn\x27t understand that.")
      user.target_language user.native_language).1 = _
    rw [horig]

/-- Claim C10: a manual text message stores its base→native translation as
the original text of the in-memory session turn, while the persisted log row
stores the raw typed text as its original_text; the two differ whenever that
translation changes the text. Hypotheses: the send fires only for truthy
(nonempty) manual text, and the log row exists when the commit succeeds. -/
theorem C10_manual_original_divergence (env : ManualEnv) (user : User)
    (manual_text : String) (st : AppState) (hm : manual_text ≠ "")
    (hdb : env.dbOk = true) :
    ∃ (e : MessageEntry) (row : ConversationLog),
      (ConversationManager.send_manual_message env user manual_text st).session.conversation_history
        = st.session.conversation_history ++ [e] ∧
      (ConversationManager.send_manual_message env user manual_text st).db
        = st.db ++ [row] ∧
      e.original = (translate_text env.trans manual_text "en" user.native_language).1 ∧
      row.original_text = manual_text ∧
      ((translate_text env.trans manual_text "en" user.native_language).1 ≠ manual_text →
        e.original ≠ row.original_text) := by
  simp only [ConversationManager.send_manual_message, if_neg hm,
    ConversationManager.save_conversation_log, hdb, if_true]
  exact ⟨_, _, rfl, rfl, rfl, rfl, fun hne => hne⟩

/-- External inputs of the manual-message send used in the C10 witness: the
model translates everything to "hola" and the commit succeeds. -/
def envC10 : ManualEnv := ⟨oracleHola, ttsDetectEn, true⟩

/-- Claim C10 witness: the typed text "hello" sent by a user with native
language "es"; the session turn stores "hola", the log row stores "hello". -/
theorem C10_manual_original_divergence_witness :
    ("hello" ≠ "" ∧ envC10.dbOk = true) ∧
    (∃ (e : MessageEntry) (row : ConversationLog),
      (ConversationManager.send_manual_message envC10 userEsEn "hello" initialState).session.conversation_history
        = initialState.session.conversation_history ++ [e] ∧
      (ConversationManager.send_manual_message envC10 userEsEn "hello" initialState).db
        = initialState.db ++ [row] ∧
      e.original = (translate_text envC10.trans "hello" "en" userEsEn.native_language).1 ∧
      row.original_text = "hello" ∧
      ((translate_text envC10.trans "hello" "en" userEsEn.native_language).1 ≠ "hello" →
        e.original ≠ row.original_text)) :=
  ⟨⟨by decide, rfl⟩,
   C10_manual_original_divergence envC10 userEsEn "hello" initialState (by decide) rfl⟩

/-- External inputs of the incoming turn used in the C6 witness: empty audio,
so transcription yields nothing. -/
def envC6 : InEnv := ⟨[], "unused", oracleNone, ttsDetectEn, true⟩

/-- Claim C6 witness: with empty audio the incoming turn falls back to the
fixed string and translates it target→native. -/
theorem C6_transcription_fallback_witness :
    (envC6.audio = [] ∨ envC6.choice = "") ∧
    (∃ e : MessageEntry,
      (ConversationManager.simulate_incoming_message envC6 userEnEs initialState).state.session.conversation_history
        = initialState.session.conversation_history ++ [e] ∧
      e.sender = "Partner" ∧
      e.original = "Sorry, I couldn\x27t understand that." ∧
      e.translated = (translate_text envC6.trans "Sorry, I couldn\x27t understand that."
          userEnEs.target_language userEnEs.native_language).1) :=
  ⟨Or.inl rfl, C6_transcription_fallback envC6 userEnEs initialState (Or.inl rfl)⟩
